import Mathlib

/-!
# SLO reporter — verification of the evaluator, query and report logic

Shallow embedding of the Go tool `tools/slo-reporter` (single file `main.go`).
The Go program computes two SLO evaluations (availability and latency p95)
from Prometheus query results and assembles them into a report.

Modelling choices:
* Go `float64` arithmetic is modelled exactly over `ℚ`; every constant of the
  source (`0.999`, `0.5`, `0.1`, `0.05`, `0.8`, `1.0`, `30`) is exactly
  representable, so the rational model mirrors the intended real arithmetic.
* The network/HTTP layer of `PrometheusClient.Query` is modelled by an
  `HTTPOutcome` value describing what the transport and the decoded response
  body were; `Query` maps it to `Except String ℚ` exactly following the
  branch structure of the Go function.
* `main` is modelled by `buildReports` (the sequence of the two calculations
  with the same error short-circuiting as the Go code, which `os.Exit(1)`s on
  the first failure) and `mainExitCode`.
-/

namespace SLOReporter

/-- Constant `availabilityTarget = 0.999` of the source. -/
def availabilityTarget : ℚ := 999/1000

/-- Constant `latencyTargetP95 = 0.5` (500 ms in seconds) of the source. -/
def latencyTargetP95 : ℚ := 1/2

/-- Constant `windowDays = 30` of the source. -/
def windowDays : ℚ := 30

/-- The `SLOReport` struct of the source (one per evaluated SLO). -/
structure SLOReport where
  SLI : String
  CurrentValue : ℚ
  Target : ℚ
  ErrorBudget : ℚ
  ErrorBudgetSpent : ℚ
  ErrorBudgetLeft : ℚ
  BurnRate : ℚ
  Status : String
deriving DecidableEq, Repr

/-- The second slot of a `(timestamp, value)` pair in one entry of the
decoded Prometheus result array: Go reads `Result[0].Value[1]` with a
string type assertion and then `fmt.Sscanf(valueStr, "%f", &value)`.
A slot is either not a string, a string that does not scan as a float,
or a string scanning to a numeric value. -/
inductive PromValue where
  | nonString : PromValue
  | unparsable (raw : String) : PromValue
  | num (q : ℚ) : PromValue
deriving DecidableEq, Repr

/-- The decoded JSON body of a Prometheus query response: its `status`
field and the `data.result` array (one `PromValue` per series). -/
structure PromResponse where
  status : String
  result : List PromValue
deriving DecidableEq, Repr

/-- What the HTTP round trip of `PrometheusClient.Query` produced:
a transport error (`client.Get` failed), a non-200 status with a body,
a body that did not decode as JSON, or a decoded response. -/
inductive HTTPOutcome where
  | transportError (msg : String) : HTTPOutcome
  | badStatus (code : Nat) (body : String) : HTTPOutcome
  | undecodable (msg : String) : HTTPOutcome
  | ok (resp : PromResponse) : HTTPOutcome
deriving DecidableEq, Repr

/-- `PrometheusClient.Query`: maps the outcome of the HTTP round trip to
either a scalar or an error, with the same branch order and error
messages as the Go function. -/
def Query (outcome : HTTPOutcome) : Except String ℚ :=
  match outcome with
  | .transportError msg => .error ("failed to query Prometheus: " ++ msg)
  | .badStatus code body =>
      .error ("Prometheus returned status " ++ toString code ++ ": " ++ body)
  | .undecodable msg => .error ("failed to decode response: " ++ msg)
  | .ok resp =>
      if resp.status ≠ "success" then
        .error ("Prometheus query failed: " ++ resp.status)
      else
        match resp.result with
        | [] => .error "no data returned from query"
        | v :: _ =>
          match v with
          | .nonString => .error "invalid value format"
          | .unparsable raw => .error ("failed to parse value: " ++ raw)
          | .num q => .ok q

/-- The pure tail of `calculateAvailabilitySLO`, after the availability
query succeeded with value `currentAvailability` (source lines following
the `client.Query` call): error rate, budget arithmetic and the two
status `if` statements, verbatim. -/
def calculateAvailabilitySLOFrom (currentAvailability : ℚ) : SLOReport :=
  let errorRate := 1 - currentAvailability
  let errorBudget := 1 - availabilityTarget
  let errorBudgetSpent := errorRate / errorBudget
  let errorBudgetLeft := 1 - errorBudgetSpent
  let burnRate := errorRate / errorBudget
  let status := "✅ Healthy"
  let status := if errorBudgetSpent > 8/10 then "⚠️ Warning" else status
  let status := if errorBudgetSpent ≥ 1 then "❌ Breached" else status
  { SLI := "Availability"
    CurrentValue := currentAvailability
    Target := availabilityTarget
    ErrorBudget := errorBudget
    ErrorBudgetSpent := errorBudgetSpent
    ErrorBudgetLeft := errorBudgetLeft
    BurnRate := burnRate
    Status := status }

/-- `calculateAvailabilitySLO`: runs the availability query and, on
success, the pure computation; a query error propagates wrapped as
`failed to query availability: …`. -/
def calculateAvailabilitySLO (availQuery : HTTPOutcome) :
    Except String SLOReport :=
  match Query availQuery with
  | .error e => .error ("failed to query availability: " ++ e)
  | .ok currentAvailability => .ok (calculateAvailabilitySLOFrom currentAvailability)

/-- The pure tail of `calculateLatencySLO`, after the latency query
succeeded with value `currentLatency`: the `meetingSLO` estimate with
its excess-ratio heuristic and the `0.05` cap, the budget arithmetic and
the two status `if` statements, verbatim. -/
def calculateLatencySLOFrom (currentLatency : ℚ) : SLOReport :=
  let meetingSLO : ℚ := 1
  let meetingSLO :=
    if currentLatency > latencyTargetP95 then
      let excessRatio := (currentLatency - latencyTargetP95) / latencyTargetP95
      let violationRate := excessRatio * (1/10)
      let violationRate := if violationRate > 5/100 then (5/100 : ℚ) else violationRate
      1 - violationRate
    else meetingSLO
  let errorBudget : ℚ := 5/100
  let errorBudgetSpent := (1 - meetingSLO) / errorBudget
  let errorBudgetLeft := 1 - errorBudgetSpent
  let burnRate := (1 - meetingSLO) / errorBudget
  let status := "✅ Healthy"
  let status := if errorBudgetSpent > 8/10 then "⚠️ Warning" else status
  let status := if errorBudgetSpent ≥ 1 then "❌ Breached" else status
  { SLI := "Latency (p95)"
    CurrentValue := currentLatency
    Target := latencyTargetP95
    ErrorBudget := errorBudget
    ErrorBudgetSpent := errorBudgetSpent
    ErrorBudgetLeft := errorBudgetLeft
    BurnRate := burnRate
    Status := status }

/-- `calculateLatencySLO`: runs the latency query and, on success, the
pure computation; a query error propagates wrapped as
`failed to query latency: …`. -/
def calculateLatencySLO (latQuery : HTTPOutcome) : Except String SLOReport :=
  match Query latQuery with
  | .error e => .error ("failed to query latency: " ++ e)
  | .ok currentLatency => .ok (calculateLatencySLOFrom currentLatency)

/-- The report-building sequence of `main`: availability first, then
latency; on the first error `main` prints
`Error calculating … SLO: <err>` to stderr and exits 1, so no report
list is produced; on success the list `[availabilityReport, latencyReport]`. -/
def buildReports (availQuery latQuery : HTTPOutcome) :
    Except String (List SLOReport) :=
  match calculateAvailabilitySLO availQuery with
  | .error e => .error ("Error calculating availability SLO: " ++ e)
  | .ok availabilityReport =>
    match calculateLatencySLO latQuery with
    | .error e => .error ("Error calculating latency SLO: " ++ e)
    | .ok latencyReport => .ok [availabilityReport, latencyReport]

/-- The process exit code of `main`: 1 when a calculation failed
(`os.Exit(1)`), 0 otherwise. -/
def mainExitCode (availQuery latQuery : HTTPOutcome) : Nat :=
  match buildReports availQuery latQuery with
  | .error _ => 1
  | .ok _ => 0

/-- The projected-exhaustion line of `printReport` (text output): printed
for a report iff `report.BurnRate > 1.0`, and then it shows
`windowDays / report.BurnRate` (days until exhaustion). -/
def printedExhaustion (report : SLOReport) : Option ℚ :=
  if report.BurnRate > 1 then some (windowDays / report.BurnRate) else none

/-- A JSON scalar as emitted for one struct field. -/
inductive JValue where
  | str (s : String) : JValue
  | num (q : ℚ) : JValue
deriving DecidableEq, Repr

/-- The JSON object emitted for one `SLOReport` by
`json.NewEncoder(os.Stdout).Encode(reports)`: Go `encoding/json` with no
struct tags marshals exactly the exported fields of the struct, each
under its own name, unconditionally. -/
def sloReportToJSON (report : SLOReport) : List (String × JValue) :=
  [("SLI", .str report.SLI),
   ("CurrentValue", .num report.CurrentValue),
   ("Target", .num report.Target),
   ("ErrorBudget", .num report.ErrorBudget),
   ("ErrorBudgetSpent", .num report.ErrorBudgetSpent),
   ("ErrorBudgetLeft", .num report.ErrorBudgetLeft),
   ("BurnRate", .num report.BurnRate),
   ("Status", .str report.Status)]

/-- The fixed key set of the JSON object of a report. -/
def sloReportJSONFields : List String :=
  ["SLI", "CurrentValue", "Target", "ErrorBudget", "ErrorBudgetSpent",
   "ErrorBudgetLeft", "BurnRate", "Status"]

/-- The status block duplicated verbatim in the two calculators
(`status := "✅ Healthy"`, overwritten by the `> 0.8` and `>= 1.0`
`if` statements), collapsed into the equivalent conditional. -/
def statusOfSpent (s : ℚ) : String :=
  if s ≥ 1 then "❌ Breached" else if s > 8/10 then "⚠️ Warning" else "✅ Healthy"

/-! ## Helper lemmas -/

lemma availability_spent (v : ℚ) :
    (calculateAvailabilitySLOFrom v).ErrorBudgetSpent =
      (1 - v) / (1 - availabilityTarget) := rfl

lemma availability_spent_eq (v : ℚ) :
    (calculateAvailabilitySLOFrom v).ErrorBudgetSpent = 1000 * (1 - v) := by
  rw [availability_spent, availabilityTarget]
  norm_num
  ring

lemma availability_left (v : ℚ) :
    (calculateAvailabilitySLOFrom v).ErrorBudgetLeft =
      1 - (calculateAvailabilitySLOFrom v).ErrorBudgetSpent := rfl

lemma availability_burn (v : ℚ) :
    (calculateAvailabilitySLOFrom v).BurnRate =
      (calculateAvailabilitySLOFrom v).ErrorBudgetSpent := rfl

lemma availability_status (v : ℚ) :
    (calculateAvailabilitySLOFrom v).Status =
      statusOfSpent (calculateAvailabilitySLOFrom v).ErrorBudgetSpent := rfl

lemma latency_left (v : ℚ) :
    (calculateLatencySLOFrom v).ErrorBudgetLeft =
      1 - (calculateLatencySLOFrom v).ErrorBudgetSpent := rfl

lemma latency_burn (v : ℚ) :
    (calculateLatencySLOFrom v).BurnRate =
      (calculateLatencySLOFrom v).ErrorBudgetSpent := rfl

lemma latency_status (v : ℚ) :
    (calculateLatencySLOFrom v).Status =
      statusOfSpent (calculateLatencySLOFrom v).ErrorBudgetSpent := rfl

lemma cap_eq_min (x : ℚ) :
    (if x > 5/100 then (5/100 : ℚ) else x) = min (5/100) x := by
  rcases lt_or_le (5/100 : ℚ) x with h | h
  · rw [if_pos h, min_eq_left h.le]
  · rw [if_neg (not_lt.mpr h), min_eq_right h]

lemma latency_spent_of_le (v : ℚ) (h : v ≤ latencyTargetP95) :
    (calculateLatencySLOFrom v).ErrorBudgetSpent = 0 := by
  simp only [calculateLatencySLOFrom]
  rw [if_neg (not_lt.mpr h)]
  norm_num

lemma latency_spent_of_gt (v : ℚ) (h : latencyTargetP95 < v) :
    (calculateLatencySLOFrom v).ErrorBudgetSpent =
      min (5/100) ((v - latencyTargetP95) / latencyTargetP95 * (1/10)) / (5/100) := by
  simp only [calculateLatencySLOFrom]
  rw [if_pos h, sub_sub_cancel, cap_eq_min]

lemma latency_spent_nonneg (v : ℚ) : 0 ≤ (calculateLatencySLOFrom v).ErrorBudgetSpent := by
  rcases le_or_lt v latencyTargetP95 with h | h
  · rw [latency_spent_of_le v h]
  · rw [latency_spent_of_gt v h]
    have h5 : (0:ℚ) ≤ (v - latencyTargetP95) / latencyTargetP95 * (1/10) := by
      rw [latencyTargetP95] at h ⊢
      have hv : (0:ℚ) < v - 1/2 := by linarith
      positivity
    exact div_nonneg (le_min (by norm_num) h5) (by norm_num)

lemma latency_spent_le_one (v : ℚ) : (calculateLatencySLOFrom v).ErrorBudgetSpent ≤ 1 := by
  rcases le_or_lt v latencyTargetP95 with h | h
  · rw [latency_spent_of_le v h]; norm_num
  · rw [latency_spent_of_gt v h, div_le_one (by norm_num)]
    exact min_le_left _ _

lemma statusOfSpent_eq_breached_iff (s : ℚ) :
    statusOfSpent s = "❌ Breached" ↔ 1 ≤ s := by
  rw [statusOfSpent]
  split_ifs with h1 h2
  · simp only [true_iff]; exact h1
  · constructor
    · intro h; exact absurd h (by decide)
    · intro h; exact absurd h h1
  · constructor
    · intro h; exact absurd h (by decide)
    · intro h; exact absurd h h1

lemma statusOfSpent_eq_warning_iff (s : ℚ) :
    statusOfSpent s = "⚠️ Warning" ↔ 8/10 < s ∧ s < 1 := by
  rw [statusOfSpent]
  split_ifs with h1 h2
  · constructor
    · intro h; exact absurd h (by decide)
    · intro hc; exact absurd h1 (not_le.mpr hc.2)
  · constructor
    · intro _; exact ⟨h2, lt_of_not_ge h1⟩
    · intro _; rfl
  · constructor
    · intro h; exact absurd h (by decide)
    · intro hc; exact absurd hc.1 h2

lemma statusOfSpent_eq_healthy_iff (s : ℚ) :
    statusOfSpent s = "✅ Healthy" ↔ s ≤ 8/10 := by
  rw [statusOfSpent]
  split_ifs with h1 h2
  · constructor
    · intro h; exact absurd h (by decide)
    · intro h; exact absurd h1 (by push_neg; linarith)
  · constructor
    · intro h; exact absurd h (by decide)
    · intro h; exact absurd h2 (by push_neg; linarith)
  · constructor
    · intro _; exact not_lt.mp h2
    · intro _; rfl

/-! ## Claim theorems -/

/-- C1: for every evaluation produced by either evaluator, the status is
determined from the budget-spent fraction by exactly these thresholds:
Breached iff the fraction is ≥ 1, Warning iff it is strictly between 0.8
and 1, Healthy iff it is ≤ 0.8; in particular a fraction of exactly 0.8
(availability 0.9992) yields Healthy and exactly 1.0 (availability equal
to the 0.999 target) yields Breached. -/
theorem status_threshold_characterization :
    (∀ v : ℚ,
      ((calculateAvailabilitySLOFrom v).Status = "❌ Breached" ↔
        1 ≤ (calculateAvailabilitySLOFrom v).ErrorBudgetSpent) ∧
      ((calculateAvailabilitySLOFrom v).Status = "⚠️ Warning" ↔
        8/10 < (calculateAvailabilitySLOFrom v).ErrorBudgetSpent ∧
          (calculateAvailabilitySLOFrom v).ErrorBudgetSpent < 1) ∧
      ((calculateAvailabilitySLOFrom v).Status = "✅ Healthy" ↔
        (calculateAvailabilitySLOFrom v).ErrorBudgetSpent ≤ 8/10)) ∧
    (∀ v : ℚ,
      ((calculateLatencySLOFrom v).Status = "❌ Breached" ↔
        1 ≤ (calculateLatencySLOFrom v).ErrorBudgetSpent) ∧
      ((calculateLatencySLOFrom v).Status = "⚠️ Warning" ↔
        8/10 < (calculateLatencySLOFrom v).ErrorBudgetSpent ∧
          (calculateLatencySLOFrom v).ErrorBudgetSpent < 1) ∧
      ((calculateLatencySLOFrom v).Status = "✅ Healthy" ↔
        (calculateLatencySLOFrom v).ErrorBudgetSpent ≤ 8/10)) ∧
    (calculateAvailabilitySLOFrom (9992/10000)).ErrorBudgetSpent = 8/10 ∧
    (calculateAvailabilitySLOFrom (9992/10000)).Status = "✅ Healthy" ∧
    (calculateAvailabilitySLOFrom (999/1000)).ErrorBudgetSpent = 1 ∧
    (calculateAvailabilitySLOFrom (999/1000)).Status = "❌ Breached" := by
  have h08 : (calculateAvailabilitySLOFrom (9992/10000)).ErrorBudgetSpent = 8/10 := by
    rw [availability_spent_eq]; norm_num
  have h10 : (calculateAvailabilitySLOFrom (999/1000)).ErrorBudgetSpent = 1 := by
    rw [availability_spent_eq]; norm_num
  refine ⟨?_, ?_, h08, ?_, h10, ?_⟩
  · intro v
    rw [availability_status v]
    exact ⟨statusOfSpent_eq_breached_iff _, statusOfSpent_eq_warning_iff _,
      statusOfSpent_eq_healthy_iff _⟩
  · intro v
    rw [latency_status v]
    exact ⟨statusOfSpent_eq_breached_iff _, statusOfSpent_eq_warning_iff _,
      statusOfSpent_eq_healthy_iff _⟩
  · rw [availability_status]
    exact (statusOfSpent_eq_healthy_iff _).mpr (by rw [h08])
  · rw [availability_status]
    exact (statusOfSpent_eq_breached_iff _).mpr (by rw [h10])

/-- C2: for every evaluation produced by either evaluator, the
budget-spent fraction plus the budget-left fraction is exactly 1 —
the left fraction is definitionally `1 -` the spent fraction. -/
theorem budget_spent_plus_left_eq_one :
    ∀ v : ℚ,
      (calculateAvailabilitySLOFrom v).ErrorBudgetSpent +
        (calculateAvailabilitySLOFrom v).ErrorBudgetLeft = 1 ∧
      (calculateLatencySLOFrom v).ErrorBudgetSpent +
        (calculateLatencySLOFrom v).ErrorBudgetLeft = 1 := by
  intro v
  constructor
  · rw [availability_left]; ring
  · rw [latency_left]; ring

/-- C3: the availability evaluator computes the error rate as
`1 - current_value` (deviation against perfect service, not against the
target) and the budget-spent fraction as that error rate divided by
`1 - target`; with the 0.999 target and current value 0.9995 the error
rate is 0.0005, the spent fraction is 0.5 and the status is Healthy. -/
theorem availability_error_rate_model :
    (∀ v : ℚ,
      (calculateAvailabilitySLOFrom v).ErrorBudget = 1 - availabilityTarget ∧
      (calculateAvailabilitySLOFrom v).ErrorBudgetSpent =
        (1 - v) / (1 - availabilityTarget)) ∧
    availabilityTarget = 999/1000 ∧
    1 - (calculateAvailabilitySLOFrom (9995/10000)).CurrentValue = 5/10000 ∧
    (calculateAvailabilitySLOFrom (9995/10000)).ErrorBudgetSpent = 1/2 ∧
    (calculateAvailabilitySLOFrom (9995/10000)).Status = "✅ Healthy" := by
  have hs : (calculateAvailabilitySLOFrom (9995/10000)).ErrorBudgetSpent = 1/2 := by
    rw [availability_spent_eq]; norm_num
  refine ⟨fun v => ⟨rfl, rfl⟩, rfl, ?_, hs, ?_⟩
  · show (1 : ℚ) - 9995/10000 = 5/10000
    norm_num
  · rw [availability_status]
    exact (statusOfSpent_eq_healthy_iff _).mpr (by rw [hs]; norm_num)

/-- C9: for every evaluation produced by either evaluator, the burn rate
equals the budget-spent fraction — both are the error rate divided by
the error budget. -/
theorem burn_rate_eq_budget_spent :
    ∀ v : ℚ,
      (calculateAvailabilitySLOFrom v).BurnRate =
        (calculateAvailabilitySLOFrom v).ErrorBudgetSpent ∧
      (calculateLatencySLOFrom v).BurnRate =
        (calculateLatencySLOFrom v).ErrorBudgetSpent :=
  fun _ => ⟨rfl, rfl⟩

/-- C4: the latency evaluator's error rate is 0 whenever the current
value is at most the target, and otherwise
`min(0.05, (current - target)/target * 0.1)` — the excess ratio scaled
by 0.1 and capped at the 0.05 error budget, so the spent fraction never
exceeds 1; with target 0.5 and current value 0.6 the excess ratio is
0.2, the error rate is 0.02, the spent fraction is 0.4 and the status
is Healthy. -/
theorem latency_error_rate_model :
    (∀ v : ℚ, v ≤ latencyTargetP95 → (calculateLatencySLOFrom v).ErrorBudgetSpent = 0) ∧
    (∀ v : ℚ, latencyTargetP95 < v →
      (calculateLatencySLOFrom v).ErrorBudgetSpent =
        min (5/100) ((v - latencyTargetP95) / latencyTargetP95 * (1/10)) / (5/100)) ∧
    (∀ v : ℚ, (calculateLatencySLOFrom v).ErrorBudgetSpent ≤ 1) ∧
    (3/5 - latencyTargetP95) / latencyTargetP95 = 1/5 ∧
    min (5/100) ((3/5 - latencyTargetP95) / latencyTargetP95 * (1/10)) = 2/100 ∧
    (calculateLatencySLOFrom (3/5)).ErrorBudgetSpent = 2/5 ∧
    (calculateLatencySLOFrom (3/5)).Status = "✅ Healthy" := by
  have h35 : latencyTargetP95 < 3/5 := by rw [latencyTargetP95]; norm_num
  have hs : (calculateLatencySLOFrom (3/5)).ErrorBudgetSpent = 2/5 := by
    rw [latency_spent_of_gt _ h35]
    norm_num [latencyTargetP95, min_def]
  refine ⟨latency_spent_of_le, latency_spent_of_gt, latency_spent_le_one, ?_, ?_, hs, ?_⟩
  · rw [latencyTargetP95]; norm_num
  · rw [latencyTargetP95]; norm_num [min_def]
  · rw [latency_status]
    exact (statusOfSpent_eq_healthy_iff _).mpr (by rw [hs]; norm_num)

/-- Witness for C4: the two hypothetical branches at concrete inputs —
a current latency of 0.45 (below the 0.5 target) spends no budget, and
a current latency of 0.6 spends the capped excess-ratio estimate. -/
theorem latency_error_rate_model_witness :
    (calculateLatencySLOFrom (9/20)).ErrorBudgetSpent = 0 ∧
    (calculateLatencySLOFrom (3/5)).ErrorBudgetSpent =
      min (5/100) ((3/5 - latencyTargetP95) / latencyTargetP95 * (1/10)) / (5/100) := by
  constructor
  · exact latency_error_rate_model.1 (9/20) (by rw [latencyTargetP95]; norm_num)
  · exact latency_error_rate_model.2.1 (3/5) (by rw [latencyTargetP95]; norm_num)

/-- C10: for every measured latency value the latency evaluator's
budget-spent fraction lies in [0, 1] (so its budget-left fraction is
never negative), while the availability evaluator's spent fraction is
negative whenever the current value exceeds 1. -/
theorem latency_spent_in_unit_interval :
    (∀ v : ℚ,
      0 ≤ (calculateLatencySLOFrom v).ErrorBudgetSpent ∧
      (calculateLatencySLOFrom v).ErrorBudgetSpent ≤ 1 ∧
      0 ≤ (calculateLatencySLOFrom v).ErrorBudgetLeft) ∧
    (∀ v : ℚ, 1 < v → (calculateAvailabilitySLOFrom v).ErrorBudgetSpent < 0) := by
  constructor
  · intro v
    refine ⟨latency_spent_nonneg v, latency_spent_le_one v, ?_⟩
    rw [latency_left]
    have := latency_spent_le_one v
    linarith
  · intro v hv
    rw [availability_spent_eq]
    linarith

/-- Witness for C10: at the out-of-domain availability reading 2 the
availability spent fraction is negative, while the latency evaluator at
a latency of 3 (far above target) still stays within [0, 1]. -/
theorem latency_spent_in_unit_interval_witness :
    (calculateAvailabilitySLOFrom 2).ErrorBudgetSpent < 0 ∧
    0 ≤ (calculateLatencySLOFrom 3).ErrorBudgetSpent ∧
    (calculateLatencySLOFrom 3).ErrorBudgetSpent ≤ 1 := by
  refine ⟨latency_spent_in_unit_interval.2 2 (by norm_num), ?_, ?_⟩
  · exact (latency_spent_in_unit_interval.1 3).1
  · exact (latency_spent_in_unit_interval.1 3).2.1

/-- Counterexample for C7: the claim forbids a Healthy status with a
budget-spent fraction of at least 0.8, but at availability 0.9992 the
evaluator produces a spent fraction of exactly 0.8 together with the
Healthy status (the code tests `> 0.8`, not `>= 0.8`). -/
theorem healthy_at_exact_budget_threshold :
    (calculateAvailabilitySLOFrom (9992/10000)).ErrorBudgetSpent = 8/10 ∧
    (calculateAvailabilitySLOFrom (9992/10000)).Status = "✅ Healthy" := by
  have hs : (calculateAvailabilitySLOFrom (9992/10000)).ErrorBudgetSpent = 8/10 := by
    rw [availability_spent_eq]; norm_num
  refine ⟨hs, ?_⟩
  rw [availability_status]
  exact (statusOfSpent_eq_healthy_iff _).mpr (by rw [hs])

/-- C7 as amended: the status of every evaluation is the same total
function `statusOfSpent` of its budget-spent fraction; no evaluation is
Breached with a spent fraction below 1, and none is Healthy with a
spent fraction strictly above 0.8 (a fraction of exactly 0.8 is
Healthy). -/
theorem status_total_function_of_spent :
    (∀ v : ℚ,
      (calculateAvailabilitySLOFrom v).Status =
        statusOfSpent (calculateAvailabilitySLOFrom v).ErrorBudgetSpent ∧
      (calculateLatencySLOFrom v).Status =
        statusOfSpent (calculateLatencySLOFrom v).ErrorBudgetSpent) ∧
    (∀ v : ℚ, (calculateAvailabilitySLOFrom v).Status = "❌ Breached" →
      1 ≤ (calculateAvailabilitySLOFrom v).ErrorBudgetSpent) ∧
    (∀ v : ℚ, (calculateLatencySLOFrom v).Status = "❌ Breached" →
      1 ≤ (calculateLatencySLOFrom v).ErrorBudgetSpent) ∧
    (∀ v : ℚ, (calculateAvailabilitySLOFrom v).Status = "✅ Healthy" →
      (calculateAvailabilitySLOFrom v).ErrorBudgetSpent ≤ 8/10) ∧
    (∀ v : ℚ, (calculateLatencySLOFrom v).Status = "✅ Healthy" →
      (calculateLatencySLOFrom v).ErrorBudgetSpent ≤ 8/10) := by
  refine ⟨fun v => ⟨availability_status v, latency_status v⟩, ?_, ?_, ?_, ?_⟩
  · intro v h
    rw [availability_status] at h
    exact (statusOfSpent_eq_breached_iff _).mp h
  · intro v h
    rw [latency_status] at h
    exact (statusOfSpent_eq_breached_iff _).mp h
  · intro v h
    rw [availability_status] at h
    exact (statusOfSpent_eq_healthy_iff _).mp h
  · intro v h
    rw [latency_status] at h
    exact (statusOfSpent_eq_healthy_iff _).mp h

/-- Witness for C7 as amended: a Breached availability evaluation
(current value 0.98) indeed has a spent fraction of at least 1, and a
Healthy latency evaluation (current value 0.45) has one of at most 0.8. -/
theorem status_total_function_of_spent_witness :
    1 ≤ (calculateAvailabilitySLOFrom (49/50)).ErrorBudgetSpent ∧
    (calculateLatencySLOFrom (9/20)).ErrorBudgetSpent ≤ 8/10 := by
  constructor
  · refine status_total_function_of_spent.2.1 (49/50) ?_
    rw [availability_status]
    exact (statusOfSpent_eq_breached_iff _).mpr (by rw [availability_spent_eq]; norm_num)
  · refine status_total_function_of_spent.2.2.2.2 (9/20) ?_
    rw [latency_status]
    refine (statusOfSpent_eq_healthy_iff _).mpr ?_
    rw [latency_spent_of_le (9/20) (by rw [latencyTargetP95]; norm_num)]
    norm_num

/-- Counterexample for C5: the claim asserts that the projected
exhaustion is present in the JSON output form whenever the burn rate
exceeds 1, but at availability 0.98 the burn rate is 20 while the JSON
object emitted for the report consists of exactly the eight struct
fields — none of them a projected-exhaustion estimate (the text output
is the only place where `windowDays / burnRate` is shown). -/
theorem projected_exhaustion_absent_from_json :
    (calculateAvailabilitySLOFrom (49/50)).BurnRate = 20 ∧ (1 : ℚ) < 20 ∧
    sloReportToJSON (calculateAvailabilitySLOFrom (49/50)) =
      [("SLI", .str "Availability"), ("CurrentValue", .num (49/50)),
       ("Target", .num (999/1000)), ("ErrorBudget", .num (1/1000)),
       ("ErrorBudgetSpent", .num 20), ("ErrorBudgetLeft", .num (-19)),
       ("BurnRate", .num 20), ("Status", .str "❌ Breached")] := by
  have hs : (calculateAvailabilitySLOFrom (49/50)).ErrorBudgetSpent = 20 := by
    rw [availability_spent_eq]; norm_num
  have hst : (calculateAvailabilitySLOFrom (49/50)).Status = "❌ Breached" := by
    rw [availability_status]
    exact (statusOfSpent_eq_breached_iff _).mpr (by rw [hs]; norm_num)
  refine ⟨by rw [availability_burn, hs], by norm_num, ?_⟩
  rw [sloReportToJSON, hst, availability_burn, hs, availability_left, hs]
  norm_num [calculateAvailabilitySLOFrom, availabilityTarget]

/-- C5 as amended: in the text output of `printReport` the projected
exhaustion is present iff the burn rate exceeds 1, and when present it
equals `windowDays` divided by the burn rate; the JSON output form, in
contrast, always consists of the same eight fields of the report struct
and never carries a projected exhaustion. -/
theorem projected_exhaustion_text_only :
    (∀ report : SLOReport,
      (printedExhaustion report).isSome = true ↔ 1 < report.BurnRate) ∧
    (∀ report : SLOReport, 1 < report.BurnRate →
      printedExhaustion report = some (windowDays / report.BurnRate)) ∧
    (∀ report : SLOReport,
      (sloReportToJSON report).map Prod.fst = sloReportJSONFields) := by
  refine ⟨?_, ?_, fun report => rfl⟩
  · intro report
    rw [printedExhaustion]
    split_ifs with h
    · simp only [Option.isSome_some, true_iff]; exact h
    · simp only [Option.isSome_none, Bool.false_eq_true, false_iff]; exact h
  · intro report h
    rw [printedExhaustion, if_pos h]

/-- Witness for C5 as amended: the Breached availability report at
current value 0.98 has burn rate 20, so the text output shows an
exhaustion estimate of `windowDays / 20` days. -/
theorem projected_exhaustion_text_only_witness :
    printedExhaustion (calculateAvailabilitySLOFrom (49/50)) =
      some (windowDays / (calculateAvailabilitySLOFrom (49/50)).BurnRate) := by
  refine projected_exhaustion_text_only.2.1 _ ?_
  rw [availability_burn, availability_spent_eq]
  norm_num

/-- C6: a failed measurement — in particular a query whose result set
contains zero series — makes the whole run fail: `Query` turns an empty
result into the `no data returned from query` error, a failing
availability or latency query makes `buildReports` return an error that
names the failed query and makes the process exit non-zero, and a
report list is only ever produced when both measurements succeeded, in
which case it is exactly the two evaluations of the measured values
(never a defaulted one). -/
theorem measurement_failure_fails_report :
    (∀ resp : PromResponse, resp.status = "success" → resp.result = [] →
      Query (.ok resp) = .error "no data returned from query") ∧
    (∀ availQuery latQuery : HTTPOutcome, ∀ e : String,
      Query availQuery = .error e →
      buildReports availQuery latQuery =
        .error ("Error calculating availability SLO: " ++
          ("failed to query availability: " ++ e)) ∧
      mainExitCode availQuery latQuery = 1) ∧
    (∀ availQuery latQuery : HTTPOutcome, ∀ va : ℚ, ∀ e : String,
      Query availQuery = .ok va → Query latQuery = .error e →
      buildReports availQuery latQuery =
        .error ("Error calculating latency SLO: " ++
          ("failed to query latency: " ++ e)) ∧
      mainExitCode availQuery latQuery = 1) ∧
    (∀ availQuery latQuery : HTTPOutcome, ∀ reports : List SLOReport,
      buildReports availQuery latQuery = .ok reports →
      ∃ va, Query availQuery = .ok va ∧
        ∃ vl, Query latQuery = .ok vl ∧
          reports = [calculateAvailabilitySLOFrom va, calculateLatencySLOFrom vl]) := by
  refine ⟨?_, ?_, ?_, ?_⟩
  · intro resp h1 h2
    simp [Query, h1, h2]
  · intro availQuery latQuery e h
    simp [buildReports, calculateAvailabilitySLO, mainExitCode, h]
  · intro availQuery latQuery va e ha hl
    simp [buildReports, calculateAvailabilitySLO, calculateLatencySLO, mainExitCode, ha, hl]
  · intro availQuery latQuery reports h
    rcases hqa : Query availQuery with ea | va
    · simp [buildReports, calculateAvailabilitySLO, hqa] at h
    · rcases hql : Query latQuery with el | vl
      · simp [buildReports, calculateAvailabilitySLO, calculateLatencySLO, hqa, hql] at h
      · refine ⟨va, rfl, vl, rfl, ?_⟩
        simp [buildReports, calculateAvailabilitySLO, calculateLatencySLO, hqa, hql] at h
        exact h.symm

/-- Witness for C6: a successful response with an empty result array on
the availability query makes the whole run fail with the chained error
naming the availability query and NoData, with exit code 1. -/
theorem measurement_failure_fails_report_witness :
    Query (.ok ⟨"success", []⟩) = .error "no data returned from query" ∧
    buildReports (.ok ⟨"success", []⟩) (.ok ⟨"success", [.num (9/20)]⟩) =
      .error ("Error calculating availability SLO: " ++
        ("failed to query availability: " ++ "no data returned from query")) ∧
    mainExitCode (.ok ⟨"success", []⟩) (.ok ⟨"success", [.num (9/20)]⟩) = 1 := by
  have hq : Query (.ok ⟨"success", []⟩) = .error "no data returned from query" :=
    measurement_failure_fails_report.1 ⟨"success", []⟩ rfl rfl
  have h := measurement_failure_fails_report.2.1
    (.ok ⟨"success", []⟩) (.ok ⟨"success", [.num (9/20)]⟩)
    "no data returned from query" hq
  exact ⟨hq, h.1, h.2⟩

/-- Counterexample for C8: the claim asserts an aggregate pass/fail
signal that fails whenever some evaluation is Breached, but with both
measurements succeeding (availability 0.98, latency 0.45) the report
contains a Breached availability evaluation while the only aggregate
signal the program exposes, its exit code, is 0. -/
theorem exit_zero_with_breached_evaluation :
    buildReports (.ok ⟨"success", [.num (49/50)]⟩) (.ok ⟨"success", [.num (9/20)]⟩) =
      .ok [calculateAvailabilitySLOFrom (49/50), calculateLatencySLOFrom (9/20)] ∧
    (calculateAvailabilitySLOFrom (49/50)).Status = "❌ Breached" ∧
    mainExitCode (.ok ⟨"success", [.num (49/50)]⟩) (.ok ⟨"success", [.num (9/20)]⟩) = 0 := by
  refine ⟨rfl, ?_, rfl⟩
  rw [availability_status]
  exact (statusOfSpent_eq_breached_iff _).mpr (by rw [availability_spent_eq]; norm_num)

/-- C8 as amended: the program exposes no aggregate pass/fail signal
over the evaluations' statuses; its exit code is 0 exactly when both
measurements succeeded (a report list was built), regardless of any
Breached status, so a gating caller must walk the evaluations itself. -/
theorem exit_code_reflects_measurement_only :
    ∀ availQuery latQuery : HTTPOutcome,
      mainExitCode availQuery latQuery = 0 ↔
        ∃ reports, buildReports availQuery latQuery = .ok reports := by
  intro availQuery latQuery
  rcases h : buildReports availQuery latQuery with e | reports
  · simp [mainExitCode, h]
  · simp [mainExitCode, h]

end SLOReporter
